import Mathlib

/-!
Shallow embedding of the cart-store, server cart mutations, cache services,
resilient fetch and cross-tab sync logic of the distribuidora-santana-miro
storefront, together with theorems settling the specification's claims.

Conventions of the embedding: JavaScript numbers are modeled as ℚ,
timestamps (Date.now, Date.getTime) as ℤ passed explicitly, JavaScript
Map/localStorage as association lists with first-match lookup, thrown
errors as Except, and asynchronous collaborators (HTTP fetches, the
database row backing a cart session) as explicit function or Option
parameters.
-/

namespace SpecProof

deriving instance DecidableEq for Except

/-! ### Shared list helpers -/

theorem foldl_add_eq {α : Type} (f : α → ℚ) :
    ∀ (l : List α) (a : ℚ), l.foldl (fun t i => t + f i) a = a + (l.map f).sum
  | [], a => by simp
  | x :: xs, a => by
    simp only [List.foldl_cons, List.map_cons, List.sum_cons]
    rw [foldl_add_eq f xs (a + f x)]
    ring

/-! ## The client cart store (zustand store in stores/cartStore.ts) -/

namespace CartStore

/-- JavaScript value in the price field of a product as handled by
computeCartValues: a number, a string, or anything else (yields 0). -/
inductive PriceVal where
  | num (q : ℚ)
  | str (s : String)
  | null
deriving DecidableEq, Repr

def digitsVal (cs : List Char) : ℕ :=
  cs.foldl (fun n c => n * 10 + (c.toNat - 48)) 0

def fracVal (cs : List Char) : ℚ :=
  (digitsVal cs : ℚ) / ((10 : ℚ) ^ cs.length)

/-- Model of JavaScript parseFloat on a cleaned numeric string: leading
integer digits, an optional dot, fraction digits; none when no digit can
be read at all (parseFloat would give NaN, which ℚ cannot represent). -/
def parseFloatQ (cs : List Char) : Option ℚ :=
  match cs.takeWhile Char.isDigit, cs.dropWhile Char.isDigit with
  | [], '.' :: rest =>
    let frac := rest.takeWhile Char.isDigit
    if frac.isEmpty then none else some (fracVal frac)
  | [], _ => none
  | ds, '.' :: rest => some ((digitsVal ds : ℚ) + fracVal (rest.takeWhile Char.isDigit))
  | ds, _ => some ((digitsVal ds : ℚ))

def cleanPrice (cs : List Char) : List Char :=
  cs.filter (fun c => c.isDigit || c = '.' || c = ',')

def commaToDot : List Char → List Char
  | [] => []
  | c :: cs => if c = ',' then '.' :: cs else c :: commaToDot cs

/-- Price extraction inside computeCartValues: a non-empty string price is
stripped to digits, dots and commas, its first comma becomes a dot and
parseFloat is applied (a NaN outcome is modeled as 0); a numeric price is
used as is; any other value gives 0. -/
def effectivePrice : PriceVal → ℚ
  | .num q => q
  | .str s => if s = "" then 0 else (parseFloatQ (commaToDot (cleanPrice s.toList))).getD 0
  | .null => 0

structure Product where
  externalId : String
  name : String
  price : PriceVal
  availableQuantity : ℚ
  isActive : Bool
deriving DecidableEq, Repr

structure CartItem where
  id : String
  product : Product
  quantity : ℚ
  addedAt : ℤ
deriving DecidableEq, Repr

/-- In-memory state of the store; itemCount and totalPrice model the
cached computed fields _itemCount and _totalPrice. -/
structure CartState where
  items : List CartItem
  sessionId : String
  isLoading : Bool
  lastUpdated : ℤ
  itemCount : ℚ
  totalPrice : ℚ
deriving DecidableEq, Repr

/-- computeCartValues from the store: the pair (itemCount, totalPrice)
accumulated by reduce over the items. -/
def computeCartValues (items : List CartItem) : ℚ × ℚ :=
  (items.foldl (fun total item => total + item.quantity) 0,
   items.foldl (fun total item => total + effectivePrice item.product.price * item.quantity) 0)

/-- Specification-side sum of the quantities of the items. -/
def sumQuantities (items : List CartItem) : ℚ :=
  (items.map (fun i => i.quantity)).sum

/-- Specification-side sum of unit price times quantity over the items. -/
def sumAmounts (items : List CartItem) : ℚ :=
  (items.map (fun i => effectivePrice i.product.price * i.quantity)).sum

theorem computeCartValues_fst (items : List CartItem) :
    (computeCartValues items).1 = sumQuantities items := by
  simpa using foldl_add_eq (fun i : CartItem => i.quantity) items 0

theorem computeCartValues_snd (items : List CartItem) :
    (computeCartValues items).2 = sumAmounts items := by
  simpa using foldl_add_eq (fun i : CartItem => effectivePrice i.product.price * i.quantity) items 0

/-- JavaScript falsiness of the price field, as tested by the
`!product.price` guard before the product-data fetch. -/
def priceFalsy : PriceVal → Bool
  | .num q => decide (q = 0)
  | .str s => decide (s = "")
  | .null => true

def hasItem (items : List CartItem) (pid : String) : Bool :=
  items.any (fun i => i.id == pid)

/-- Mutate the first item carrying the given id (items.find in the store
returns the first match and is mutated in place). -/
def addQtyFirst (pid : String) (q : ℚ) : List CartItem → List CartItem
  | [] => []
  | i :: is =>
    if i.id == pid then { i with quantity := i.quantity + q } :: is
    else i :: addQtyFirst pid q is

def setQtyFirst (pid : String) (q : ℚ) : List CartItem → List CartItem
  | [] => []
  | i :: is =>
    if i.id == pid then { i with quantity := q } :: is
    else i :: setQtyFirst pid q is

/-- splice(findIndex(..), 1): drop the first item with the given id. -/
def removeFirst (pid : String) : List CartItem → List CartItem
  | [] => []
  | i :: is => if i.id == pid then is else i :: removeFirst pid is

/-- Success path of the store's addToCart. When the incoming product has a
falsy price or an empty name the store first fetches fresh product data
(parameter fetched, null when that fetch fails) and uses it if non-null;
then the quantity is accumulated into the first existing item with the
same externalId, or a new item is appended; totals are recomputed in the
same set call and lastUpdated is bumped. -/
def addToCart (st : CartState) (product : Product) (quantity : ℚ)
    (fetched : Option Product) (now : ℤ) : CartState :=
  let productData :=
    if priceFalsy product.price || product.name == "" then fetched.getD product else product
  let items' :=
    if hasItem st.items productData.externalId then addQtyFirst productData.externalId quantity st.items
    else st.items ++ [{ id := productData.externalId, product := productData,
                        quantity := quantity, addedAt := now }]
  { st with items := items', lastUpdated := now, isLoading := false,
            itemCount := (computeCartValues items').1,
            totalPrice := (computeCartValues items').2 }

/-- removeFromCart of the store: only when findIndex succeeds is the item
spliced out, totals recomputed, and lastUpdated bumped; otherwise the
state is untouched. -/
def removeFromCart (st : CartState) (productId : String) (now : ℤ) : CartState :=
  if hasItem st.items productId then
    let items' := removeFirst productId st.items
    { st with items := items', lastUpdated := now,
              itemCount := (computeCartValues items').1,
              totalPrice := (computeCartValues items').2 }
  else st

/-- updateQuantity of the store: a quantity ≤ 0 delegates to
removeFromCart; otherwise the first matching item's quantity is replaced
and totals recomputed; an absent id leaves the state untouched. -/
def updateQuantity (st : CartState) (productId : String) (quantity : ℚ) (now : ℤ) : CartState :=
  if quantity ≤ 0 then removeFromCart st productId now
  else if hasItem st.items productId then
    let items' := setQtyFirst productId quantity st.items
    { st with items := items', lastUpdated := now,
              itemCount := (computeCartValues items').1,
              totalPrice := (computeCartValues items').2 }
  else st

/-- clearCart of the store: items emptied, a fresh session id minted,
totals reset to zero. -/
def clearCart (st : CartState) (newSessionId : String) (now : ℤ) : CartState :=
  { st with items := [], sessionId := newSessionId, lastUpdated := now,
            itemCount := 0, totalPrice := 0 }

/-- Initial state of the store (and the state right after hydration of an
empty cart). -/
def emptyCart (sessionId : String) (now : ℤ) : CartState :=
  { items := [], sessionId := sessionId, isLoading := false, lastUpdated := now,
    itemCount := 0, totalPrice := 0 }

/-- Validation issues of the store's validateCart, carrying the data the
interpolated Portuguese messages carry. -/
inductive Issue where
  | notAvailable (name : String)
  | insufficientStock (name : String) (available : ℚ)
  | notFound (name : String)
deriving DecidableEq, Repr

/-- Loop body of the store's validateCart: catalog models the per-item
fetchProductData result. Issues and surviving (refreshed) items are
collected in item order; an inactive product, insufficient stock or a
failed lookup each produce an issue and drop the item from the validated
list. -/
def validateItems (catalog : String → Option Product) :
    List CartItem → List Issue × List CartItem
  | [] => ([], [])
  | item :: rest =>
    let tail := validateItems catalog rest
    match catalog item.product.externalId with
    | some p =>
      if !p.isActive then (.notAvailable item.product.name :: tail.1, tail.2)
      else if p.availableQuantity < item.quantity then
        (.insufficientStock item.product.name p.availableQuantity :: tail.1, tail.2)
      else (tail.1, { item with product := p } :: tail.2)
    | none => (.notFound item.product.name :: tail.1, tail.2)

/-- validateCart of the store: computes the issues, then commits the
validated items (dropping every flagged one) with recomputed totals, and
returns { hasIssues, issues } next to the new state. -/
def validateCart (st : CartState) (catalog : String → Option Product) (now : ℤ) :
    (Bool × List Issue) × CartState :=
  let r := validateItems catalog st.items
  ((!r.1.isEmpty, r.1),
   { st with items := r.2, lastUpdated := now,
             itemCount := (computeCartValues r.2).1,
             totalPrice := (computeCartValues r.2).2 })

/-- Cart states reachable from an empty cart by the four public mutations
of the store. -/
inductive Reachable : CartState → Prop
  | empty (sid : String) (now : ℤ) : Reachable (emptyCart sid now)
  | add (st : CartState) (p : Product) (q : ℚ) (f : Option Product) (now : ℤ) :
      Reachable st → Reachable (addToCart st p q f now)
  | remove (st : CartState) (pid : String) (now : ℤ) :
      Reachable st → Reachable (removeFromCart st pid now)
  | update (st : CartState) (pid : String) (q : ℚ) (now : ℤ) :
      Reachable st → Reachable (updateQuantity st pid q now)
  | clear (st : CartState) (sid : String) (now : ℤ) :
      Reachable st → Reachable (clearCart st sid now)

/-- Totals of a state agree with the aggregates of its items. -/
def TotalsConsistent (st : CartState) : Prop :=
  st.itemCount = sumQuantities st.items ∧ st.totalPrice = sumAmounts st.items

theorem reachable_totalsConsistent {st : CartState} (h : Reachable st) : TotalsConsistent st := by
  induction h with
  | empty sid now =>
    exact ⟨rfl, rfl⟩
  | add st p q f now _ _ =>
    exact ⟨computeCartValues_fst _, computeCartValues_snd _⟩
  | remove st pid now _ ih =>
    unfold removeFromCart
    split
    · exact ⟨computeCartValues_fst _, computeCartValues_snd _⟩
    · exact ih
  | update st pid q now _ ih =>
    unfold updateQuantity
    split
    · unfold removeFromCart
      split
      · exact ⟨computeCartValues_fst _, computeCartValues_snd _⟩
      · exact ih
    · split
      · exact ⟨computeCartValues_fst _, computeCartValues_snd _⟩
      · exact ih
  | clear st sid now _ _ =>
    refine ⟨?_, ?_⟩ <;> simp [clearCart, sumQuantities, sumAmounts]

end CartStore

/-! ## Server-side cart mutations (convex/mutations/cart/cartOperations.ts)

The database row holding a cart session and the product row are passed in
explicitly: product models ctx.db.get(productId) and session models the
by_session_id query result. Every throw becomes an Except.error. -/

namespace ConvexCart

structure DbProduct where
  price : ℚ
  availableQuantity : ℚ
  isActive : Bool
deriving DecidableEq, Repr

structure DbCartItem where
  productId : String
  quantity : ℚ
  unitPrice : ℚ
deriving DecidableEq, Repr

structure CartSession where
  sessionId : String
  items : List DbCartItem
  totalItems : ℚ
  totalAmount : ℚ
  createdAt : ℤ
  updatedAt : ℤ
deriving DecidableEq, Repr

/-- One constructor per throw site of cartOperations.ts, carrying the data
interpolated into the thrown message. -/
inductive CartError where
  | productNotFound
  | productInactive
  | insufficientStock (available : ℚ)
  | quantityNotPositive
  | cartNotFound
  | itemNotFound
deriving DecidableEq, Repr

/-- reduce((sum, item) => sum + item.quantity, 0). -/
def sumItems (items : List DbCartItem) : ℚ :=
  items.foldl (fun s i => s + i.quantity) 0

/-- reduce((sum, item) => sum + item.quantity * item.unitPrice, 0). -/
def sumValue (items : List DbCartItem) : ℚ :=
  items.foldl (fun s i => s + i.quantity * i.unitPrice) 0

/-- Specification-side sum of the quantities. -/
def itemsQuantitySum (items : List DbCartItem) : ℚ :=
  (items.map (fun i => i.quantity)).sum

/-- Specification-side sum of unit price times quantity. -/
def itemsAmountSum (items : List DbCartItem) : ℚ :=
  (items.map (fun i => i.unitPrice * i.quantity)).sum

theorem sumItems_eq (items : List DbCartItem) : sumItems items = itemsQuantitySum items := by
  simpa [sumItems, itemsQuantitySum] using
    foldl_add_eq (fun i : DbCartItem => i.quantity) items 0

theorem sumValue_eq (items : List DbCartItem) : sumValue items = itemsAmountSum items := by
  have h := foldl_add_eq (fun i : DbCartItem => i.quantity * i.unitPrice) items 0
  have hmap : (fun i : DbCartItem => i.quantity * i.unitPrice)
      = fun i : DbCartItem => i.unitPrice * i.quantity := funext fun i => mul_comm _ _
  simpa [sumValue, itemsAmountSum, hmap] using h

def findItem (items : List DbCartItem) (pid : String) : Option DbCartItem :=
  items.find? (fun i => i.productId == pid)

/-- updatedItems[findIndex(..)] = f(existing): replace the first item with
the given product id. -/
def bumpFirst (pid : String) (f : DbCartItem → DbCartItem) : List DbCartItem → List DbCartItem
  | [] => []
  | i :: is => if i.productId == pid then f i :: is else i :: bumpFirst pid f is

/-- addToCart mutation: validates the product (existence, active flag,
stock, positive quantity, in that order), then inserts a fresh session or
accumulates into the existing item (re-checking stock against the summed
quantity and overwriting unitPrice with the current product price), or
appends a new item; totals are recomputed from the updated items. -/
def addToCart (product : Option DbProduct) (session : Option CartSession)
    (sessionId productId : String) (quantity : ℚ) (now : ℤ) : Except CartError CartSession :=
  match product with
  | none => .error .productNotFound
  | some p =>
    if !p.isActive then .error .productInactive
    else if p.availableQuantity < quantity then .error (.insufficientStock p.availableQuantity)
    else if quantity ≤ 0 then .error .quantityNotPositive
    else match session with
      | none =>
        .ok { sessionId := sessionId,
              items := [{ productId := productId, quantity := quantity, unitPrice := p.price }],
              totalItems := quantity, totalAmount := p.price * quantity,
              createdAt := now, updatedAt := now }
      | some cs =>
        match findItem cs.items productId with
        | some existing =>
          let newQuantity := existing.quantity + quantity
          if p.availableQuantity < newQuantity then .error (.insufficientStock p.availableQuantity)
          else
            let items' := bumpFirst productId
              (fun i => { i with quantity := newQuantity, unitPrice := p.price }) cs.items
            .ok { cs with items := items', totalItems := sumItems items',
                          totalAmount := sumValue items', updatedAt := now }
        | none =>
          let items' := cs.items ++ [{ productId := productId, quantity := quantity, unitPrice := p.price }]
          .ok { cs with items := items', totalItems := sumItems items',
                        totalAmount := sumValue items', updatedAt := now }

/-- removeFromCart mutation: throws when no session exists or when the
filter removes nothing; otherwise commits the filtered items with
recomputed totals. -/
def removeFromCart (session : Option CartSession) (productId : String) (now : ℤ) :
    Except CartError CartSession :=
  match session with
  | none => .error .cartNotFound
  | some cs =>
    let items' := cs.items.filter (fun i => !(i.productId == productId))
    if items'.length = cs.items.length then .error .itemNotFound
    else .ok { cs with items := items', totalItems := sumItems items',
                       totalAmount := sumValue items', updatedAt := now }

/-- updateCartItemQuantity mutation: a quantity ≤ 0 throws immediately,
then product checks, then the first matching item's quantity and unitPrice
(overwritten with the live product price) are replaced and totals
recomputed. -/
def updateCartItemQuantity (product : Option DbProduct) (session : Option CartSession)
    (productId : String) (quantity : ℚ) (now : ℤ) : Except CartError CartSession :=
  if quantity ≤ 0 then .error .quantityNotPositive
  else match product with
  | none => .error .productNotFound
  | some p =>
    if !p.isActive then .error .productInactive
    else if p.availableQuantity < quantity then .error (.insufficientStock p.availableQuantity)
    else match session with
      | none => .error .cartNotFound
      | some cs =>
        match findItem cs.items productId with
        | none => .error .itemNotFound
        | some _ =>
          let items' := bumpFirst productId
            (fun i => { i with quantity := quantity, unitPrice := p.price }) cs.items
          .ok { cs with items := items', totalItems := sumItems items',
                        totalAmount := sumValue items', updatedAt := now }

/-- clearCart mutation: succeeds also when no session exists; otherwise
empties the items and zeroes the totals. -/
def clearCart (session : Option CartSession) (now : ℤ) : Except CartError (Option CartSession) :=
  match session with
  | none => .ok none
  | some cs => .ok (some { cs with items := [], totalItems := 0, totalAmount := 0, updatedAt := now })

/-- Totals of a session row agree with the aggregates of its items. -/
def SessionConsistent (cs : CartSession) : Prop :=
  cs.totalItems = itemsQuantitySum cs.items ∧ cs.totalAmount = itemsAmountSum cs.items

theorem addToCart_consistent {p s sid pid q now cs}
    (h : addToCart p s sid pid q now = .ok cs) : SessionConsistent cs := by
  simp only [addToCart] at h
  repeat' split at h
  all_goals cases h
  all_goals simp [SessionConsistent, itemsQuantitySum, itemsAmountSum, sumItems_eq, sumValue_eq]

theorem removeFromCart_consistent {s pid now cs}
    (h : removeFromCart s pid now = .ok cs) : SessionConsistent cs := by
  simp only [removeFromCart] at h
  repeat' split at h
  all_goals cases h
  exact ⟨sumItems_eq _, sumValue_eq _⟩

theorem updateCartItemQuantity_consistent {p s pid q now cs}
    (h : updateCartItemQuantity p s pid q now = .ok cs) : SessionConsistent cs := by
  simp only [updateCartItemQuantity] at h
  repeat' split at h
  all_goals cases h
  exact ⟨sumItems_eq _, sumValue_eq _⟩

theorem clearCart_consistent {s now cs}
    (h : clearCart s now = .ok (some cs)) : SessionConsistent cs := by
  unfold clearCart at h
  split at h
  · cases h
  · cases h
    exact ⟨rfl, rfl⟩

/-- Cart session rows reachable through successful runs of the four
mutations, starting from no session. -/
inductive Reach : Option CartSession → Prop
  | start : Reach none
  | add {s : Option CartSession} {cs : CartSession} (p : Option DbProduct)
      (sid pid : String) (q : ℚ) (now : ℤ) :
      Reach s → addToCart p s sid pid q now = .ok cs → Reach (some cs)
  | remove {s : Option CartSession} {cs : CartSession} (pid : String) (now : ℤ) :
      Reach s → removeFromCart s pid now = .ok cs → Reach (some cs)
  | update {s : Option CartSession} {cs : CartSession} (p : Option DbProduct)
      (pid : String) (q : ℚ) (now : ℤ) :
      Reach s → updateCartItemQuantity p s pid q now = .ok cs → Reach (some cs)
  | clear {s os : Option CartSession} (now : ℤ) :
      Reach s → clearCart s now = .ok os → Reach os

theorem reach_sessionConsistent {os : Option CartSession} (h : Reach os) :
    ∀ cs, os = some cs → SessionConsistent cs := by
  induction h with
  | start => intro cs hcs; cases hcs
  | add p sid pid q now _ hok _ =>
    intro cs hcs; cases hcs; exact addToCart_consistent hok
  | remove pid now _ hok _ =>
    intro cs hcs; cases hcs; exact removeFromCart_consistent hok
  | update p pid q now _ hok _ =>
    intro cs hcs; cases hcs; exact updateCartItemQuantity_consistent hok
  | clear now _ hok _ =>
    intro cs hcs
    subst hcs
    exact clearCart_consistent hok

end ConvexCart

/-! ### Key-value maps as association lists

JavaScript Map and localStorage are modeled as association lists with
unique keys: set replaces the first (hence only) binding or appends,
delete removes the bindings of the key. -/

def kvLookup {β : Type} (l : List (String × β)) (k : String) : Option β :=
  (l.find? (fun kv => kv.1 == k)).map (fun kv => kv.2)

def kvSet {β : Type} : List (String × β) → String → β → List (String × β)
  | [], k, v => [(k, v)]
  | x :: xs, k, v => if x.1 == k then (k, v) :: xs else x :: kvSet xs k v

def kvRemove {β : Type} (l : List (String × β)) (k : String) : List (String × β) :=
  l.filter (fun kv => !(kv.1 == k))

theorem kvLookup_kvSet_self {β : Type} (k : String) (v : β) :
    ∀ l : List (String × β), kvLookup (kvSet l k v) k = some v
  | [] => by simp [kvSet, kvLookup]
  | x :: xs => by
    by_cases hx : x.1 = k
    · simp [kvSet, hx, kvLookup]
    · have hx' : (x.1 == k) = false := by simpa using hx
      simpa [kvSet, hx', kvLookup, List.find?_cons] using kvLookup_kvSet_self k v xs

/-! ## Two-tier cache service (services/cacheService.ts)

Memory Map plus localStorage, namespaced keys, per-item TTL and a schema
version. The storage-quota recovery of setToLocalStorage has no
counterpart because the model's storage cannot fail. -/

namespace CacheSvc

structure CacheItem (T : Type) where
  data : T
  timestamp : ℤ
  ttl : ℤ
  version : String
deriving DecidableEq, Repr

structure Config where
  defaultTTL : ℤ
  maxSize : ℕ
  version : String
deriving DecidableEq, Repr

/-- Configuration of the exported cacheService singleton. -/
def prodConfig : Config :=
  { defaultTTL := 5 * 60 * 1000, maxSize := 100, version := "1.0.0" }

structure CacheState (T : Type) where
  memory : List (String × CacheItem T)
  storage : List (String × CacheItem T)
deriving DecidableEq, Repr

def generateKey (namespaceName identifier : String) : String :=
  "cache_" ++ namespaceName ++ "_" ++ identifier

def isExpired {T : Type} (now : ℤ) (item : CacheItem T) : Bool :=
  decide (now - item.timestamp > item.ttl)

def isVersionValid {T : Type} (cfg : Config) (item : CacheItem T) : Bool :=
  item.version == cfg.version

/-- getFromLocalStorage: an entry with a stale schema version or past its
TTL is removed from storage and reported as absent. -/
def getFromLocalStorage {T : Type} (cfg : Config) (st : CacheState T) (k : String) (now : ℤ) :
    Option (CacheItem T) × CacheState T :=
  match kvLookup st.storage k with
  | none => (none, st)
  | some item =>
    if !isVersionValid cfg item || isExpired now item then
      (none, { st with storage := kvRemove st.storage k })
    else (some item, st)

/-- get: a valid memory entry wins; otherwise a valid storage entry is
promoted into memory; otherwise a miss. An expired or version-mismatched
memory entry merely falls through to storage (it is not deleted). -/
def get {T : Type} (cfg : Config) (st : CacheState T) (ns ident : String) (now : ℤ) :
    Option T × CacheState T :=
  let k := generateKey ns ident
  let memHit :=
    match kvLookup st.memory k with
    | some item => if !isExpired now item && isVersionValid cfg item then some item.data else none
    | none => none
  match memHit with
  | some d => (some d, st)
  | none =>
    match getFromLocalStorage cfg st k now with
    | (some item, st1) => (some item.data, { st1 with memory := kvSet st1.memory k item })
    | (none, st1) => (none, st1)

/-- Stable insertion by write timestamp, matching the stable
sort((a, b) => a.timestamp - b.timestamp) of manageMemoryCacheSize. -/
def insertByTs {T : Type} (kv : String × CacheItem T) :
    List (String × CacheItem T) → List (String × CacheItem T)
  | [] => [kv]
  | x :: xs => if kv.2.timestamp < x.2.timestamp then kv :: x :: xs else x :: insertByTs kv xs

def sortByTs {T : Type} : List (String × CacheItem T) → List (String × CacheItem T)
  | [] => []
  | x :: xs => insertByTs x (sortByTs xs)

/-- manageMemoryCacheSize: at capacity, the oldest quarter of the entries
(by timestamp) is evicted. -/
def manageMemoryCacheSize {T : Type} (cfg : Config) (mem : List (String × CacheItem T)) :
    List (String × CacheItem T) :=
  if mem.length ≥ cfg.maxSize then
    let doomed := ((sortByTs mem).take (cfg.maxSize * 25 / 100)).map (fun kv => kv.1)
    mem.filter (fun kv => !(doomed.contains kv.1))
  else mem

/-- set: ttl falls back to the default when absent or 0 (JavaScript ||),
the memory tier is size-managed, then the item is written to both tiers
with the current timestamp and the configured schema version. -/
def set {T : Type} (cfg : Config) (st : CacheState T) (ns ident : String) (data : T)
    (ttl : Option ℤ) (now : ℤ) : CacheState T :=
  let k := generateKey ns ident
  let t := match ttl with
    | some t => if t = 0 then cfg.defaultTTL else t
    | none => cfg.defaultTTL
  let item : CacheItem T := { data := data, timestamp := now, ttl := t, version := cfg.version }
  { memory := kvSet (manageMemoryCacheSize cfg st.memory) k item,
    storage := kvSet st.storage k item }

/-- remove: drop the namespaced key from both tiers. -/
def remove {T : Type} (st : CacheState T) (ns ident : String) : CacheState T :=
  let k := generateKey ns ident
  { memory := kvRemove st.memory k, storage := kvRemove st.storage k }

/-- Reading back a key just written: a hit with the written payload while
within the (non-zero) TTL, a miss as soon as now - writeTime exceeds it. -/
theorem get_set {T : Type} (cfg : Config) (st : CacheState T) (ns ident : String) (data : T)
    (t : ℤ) (ht : t ≠ 0) (tw now : ℤ) :
    (get cfg (set cfg st ns ident data (some t) tw) ns ident now).1
      = if now - tw > t then none else some data := by
  have hmem : kvLookup (set cfg st ns ident data (some t) tw).memory (generateKey ns ident)
      = some { data := data, timestamp := tw, ttl := t, version := cfg.version } := by
    simp [set, ht, kvLookup_kvSet_self]
  have hsto : kvLookup (set cfg st ns ident data (some t) tw).storage (generateKey ns ident)
      = some { data := data, timestamp := tw, ttl := t, version := cfg.version } := by
    simp [set, ht, kvLookup_kvSet_self]
  by_cases hexp : now - tw > t
  · simp [get, hmem, hsto, getFromLocalStorage, isExpired, isVersionValid, hexp]
  · simp [get, hmem, isExpired, isVersionValid, hexp]

end CacheSvc

/-! ## Simple in-memory cache (lib/cache.ts variant)

The second CacheService of the source: a single Map, TTL given in
minutes, get deletes an expired entry and reports a miss. -/

namespace SimpleCache

structure CacheItem (T : Type) where
  data : T
  timestamp : ℤ
  ttl : ℤ
deriving DecidableEq, Repr

def set {T : Type} (c : List (String × CacheItem T)) (key : String) (data : T)
    (ttlMinutes : ℤ) (now : ℤ) : List (String × CacheItem T) :=
  kvSet c key { data := data, timestamp := now, ttl := ttlMinutes * 60 * 1000 }

def get {T : Type} (c : List (String × CacheItem T)) (key : String) (now : ℤ) :
    Option T × List (String × CacheItem T) :=
  match kvLookup c key with
  | none => (none, c)
  | some item =>
    if now - item.timestamp > item.ttl then (none, kvRemove c key)
    else (some item.data, c)

theorem simple_get_set {T : Type} (c : List (String × CacheItem T)) (key : String) (data : T)
    (ttlMinutes : ℤ) (tw now : ℤ) :
    (get (set c key data ttlMinutes tw) key now).1
      = if now - tw > ttlMinutes * 60 * 1000 then none else some data := by
  have h : kvLookup (set c key data ttlMinutes tw) key
      = some { data := data, timestamp := tw, ttl := ttlMinutes * 60 * 1000 } := by
    simp [set, kvLookup_kvSet_self]
  by_cases hexp : now - tw > ttlMinutes * 60 * 1000
  · simp [get, h, hexp]
  · simp [get, h, hexp]

end SimpleCache

/-! ## Stale-while-revalidate wrapper of useProductsAPIOptimized
(hooks/useProductsAPIOptimized.ts) over the two-tier cache service. -/

namespace OptimizedCatalog

def DEFAULT_CACHE_TTL : ℤ := 10 * 60 * 1000

def STALE_WHILE_REVALIDATE_TTL : ℤ := 30 * 60 * 1000

/-- Payload stored by setCachedData: the page response next to its own
write timestamp. -/
structure PageEntry (T : Type) where
  data : T
  timestamp : ℤ
deriving DecidableEq, Repr

def setCachedData {T : Type} (st : CacheSvc.CacheState (PageEntry T)) (cacheKey : String)
    (data : T) (now : ℤ) : CacheSvc.CacheState (PageEntry T) :=
  CacheSvc.set CacheSvc.prodConfig st "products" cacheKey
    { data := data, timestamp := now } (some DEFAULT_CACHE_TTL) now

/-- getCachedData: a cacheService hit is re-examined against its own
timestamp; past the long window it is purged, past the short TTL it is
returned marked stale, otherwise fresh. -/
def getCachedData {T : Type} (st : CacheSvc.CacheState (PageEntry T)) (cacheKey : String)
    (now : ℤ) : Option (T × Bool) × CacheSvc.CacheState (PageEntry T) :=
  let r := CacheSvc.get CacheSvc.prodConfig st "products" cacheKey now
  match r.1 with
  | none => (none, r.2)
  | some cached =>
    let isStale := decide (now - cached.timestamp > DEFAULT_CACHE_TTL)
    let isExpired := decide (now - cached.timestamp > STALE_WHILE_REVALIDATE_TTL)
    if isExpired then (none, CacheSvc.remove r.2 "products" cacheKey)
    else (some (cached.data, isStale), r.2)

/-- Entries written through setCachedData can never be served stale: the
underlying cacheService already reports a miss past DEFAULT_CACHE_TTL, so
any surviving hit has isStale = false (the stale branch is dead code). -/
theorem getCachedData_setCachedData_not_stale {T : Type}
    (st : CacheSvc.CacheState (PageEntry T)) (cacheKey : String) (data : T) (tw now : ℤ)
    (d : T) (b : Bool)
    (h : (getCachedData (setCachedData st cacheKey data tw) cacheKey now).1 = some (d, b)) :
    b = false := by
  have hget := CacheSvc.get_set CacheSvc.prodConfig st "products" cacheKey
    ({ data := data, timestamp := tw } : PageEntry T) DEFAULT_CACHE_TTL (by decide) tw now
  by_cases hexp : now - tw > DEFAULT_CACHE_TTL
  · rw [if_pos hexp] at hget
    simp only [getCachedData, setCachedData] at h
    rw [hget] at h
    simp at h
  · rw [if_neg hexp] at hget
    have hexp2 : ¬ now - tw > STALE_WHILE_REVALIDATE_TTL := by
      intro hcon
      apply hexp
      simp only [DEFAULT_CACHE_TTL, STALE_WHILE_REVALIDATE_TTL] at *
      linarith
    simp only [getCachedData, setCachedData] at h
    rw [hget] at h
    simp [hexp, hexp2] at h
    exact h.2

end OptimizedCatalog

/-! ## Retry with backoff of hooks/useProducts.ts

retryWithBackoff runs fn up to maxAttempts times and retries after every
failure; only the backoff delay (irrelevant to the result) depends on the
attempt number. fn is modeled as a function from the attempt number
(1-based) to that attempt's outcome; the pair returned by the model adds
the number of attempts actually made. -/

namespace Fetcher

/-- One constructor per throw site inside fetchProductsFromAPI, plus the
initial "Erro desconhecido" placeholder of retryWithBackoff. -/
inductive FetchError where
  | serverError (status : ℕ)
  | endpointNotFound
  | accessDenied
  | httpError (status : ℕ)
  | invalidFormat
  | timeout
  | unknownError
deriving DecidableEq, Repr

/-- Network outcome of a single attempt: an HTTP response whose body
either parses to a dados array or not, or an abort by the timeout
controller. -/
inductive NetOutcome (P : Type) where
  | resp (status : ℕ) (body : Option (List P))
  | abort
deriving DecidableEq, Repr

/-- Body of one attempt of fetchProductsFromAPI (normalizeProduct is the
identity in the model: P stands for already-normalized products). -/
def fetchAttempt {P : Type} : NetOutcome P → Except FetchError (List P)
  | .abort => .error .timeout
  | .resp status body =>
    if ¬(200 ≤ status ∧ status < 300) then
      if status ≥ 500 then .error (.serverError status)
      else if status = 404 then .error .endpointNotFound
      else if status = 403 then .error .accessDenied
      else .error (.httpError status)
    else
      match body with
      | some dados => .ok dados
      | none => .error .invalidFormat

def retryLoop {E A : Type} (fn : ℕ → Except E A) (attempt : ℕ) (lastError : E) :
    ℕ → Except E A × ℕ
  | 0 => (.error lastError, 0)
  | fuel + 1 =>
    match fn attempt with
    | .ok a => (.ok a, 1)
    | .error e =>
      match fuel with
      | 0 => (.error e, 1)
      | f + 1 =>
        let r := retryLoop fn (attempt + 1) e (f + 1)
        (r.1, r.2 + 1)

def retryWithBackoff {E A : Type} (fn : ℕ → Except E A) (maxAttempts : ℕ) (defaultError : E) :
    Except E A × ℕ :=
  retryLoop fn 1 defaultError maxAttempts

def MAX_RETRY_ATTEMPTS : ℕ := 3

def fetchProductsFromAPI {P : Type} (net : ℕ → NetOutcome P) : Except FetchError (List P) × ℕ :=
  retryWithBackoff (fun attempt => fetchAttempt (net attempt)) MAX_RETRY_ATTEMPTS .unknownError

/-- Whatever error the first attempt produced, a second attempt is made
and its success is returned: no error class stops the loop. -/
theorem retry_retries_any_error {E A : Type} (fn : ℕ → Except E A) (d e : E) (a : A)
    (h1 : fn 1 = .error e) (h2 : fn 2 = .ok a) :
    retryWithBackoff fn 3 d = (.ok a, 2) := by
  simp [retryWithBackoff, retryLoop, h1, h2]

/-- When every attempt fails, the loop runs the full budget and the last
error is what propagates. -/
theorem retry_exhausts {E A : Type} (fn : ℕ → Except E A) (d e1 e2 e3 : E)
    (h1 : fn 1 = .error e1) (h2 : fn 2 = .error e2) (h3 : fn 3 = .error e3) :
    retryWithBackoff fn 3 d = (.error e3, 3) := by
  simp [retryWithBackoff, retryLoop, h1, h2, h3]

end Fetcher

/-! ## Retry with classification of hooks/useProductsAPIOptimized.ts

This second retryWithBackoff distinguishes errors: an AbortError or a
message containing "HTTP 4" but not "408" is rethrown immediately, every
other error is retried. Attempts are 0-based, maxRetries extra attempts
follow the first. -/

namespace OptimizedFetch

structure JsError where
  name : String
  message : String
deriving DecidableEq, Repr

def startsWithL : List Char → List Char → Bool
  | [], _ => true
  | _ :: _, [] => false
  | a :: as, b :: bs => a == b && startsWithL as bs

def isSubstringL (needle : List Char) : List Char → Bool
  | [] => needle.isEmpty
  | c :: cs => startsWithL needle (c :: cs) || isSubstringL needle cs

/-- JavaScript String.prototype.includes. -/
def includesStr (s sub : String) : Bool :=
  isSubstringL sub.toList s.toList

/-- Retry guard in the catch of this retryWithBackoff. -/
def isNonRetryable (e : JsError) : Bool :=
  e.name == "AbortError" || (includesStr e.message "HTTP 4" && !includesStr e.message "408")

/-- Error thrown by fetchProductsPaginated for a non-ok response. -/
def httpStatusError (status : ℕ) (statusText : String) : JsError :=
  { name := "Error", message := "HTTP " ++ toString status ++ ": " ++ statusText }

/-- Error rethrown by fetchProductsPaginated when the abort controller
fired (the AbortError is wrapped, so its name is plain Error). -/
def timeoutError : JsError :=
  { name := "Error", message := "Timeout: Requisição cancelada por demora excessiva" }

def retryLoopOpt {A : Type} (fn : ℕ → Except JsError A) (attempt : ℕ) :
    ℕ → Except JsError A × ℕ
  | 0 =>
    match fn attempt with
    | .ok a => (.ok a, 1)
    | .error e => (.error e, 1)
  | f + 1 =>
    match fn attempt with
    | .ok a => (.ok a, 1)
    | .error e =>
      if isNonRetryable e then (.error e, 1)
      else
        let r := retryLoopOpt fn (attempt + 1) f
        (r.1, r.2 + 1)

def retryWithBackoffOpt {A : Type} (fn : ℕ → Except JsError A) (maxRetries : ℕ) :
    Except JsError A × ℕ :=
  retryLoopOpt fn 0 maxRetries

theorem retryOpt_stops_on_nonretryable {A : Type} (fn : ℕ → Except JsError A)
    (m : ℕ) (e : JsError) (h : fn 0 = .error e) (hc : isNonRetryable e = true) :
    retryWithBackoffOpt fn m = (.error e, 1) := by
  cases m <;> simp [retryWithBackoffOpt, retryLoopOpt, h, hc]

theorem retryOpt_retries_retryable {A : Type} (fn : ℕ → Except JsError A)
    (m : ℕ) (e : JsError) (a : A)
    (h : fn 0 = .error e) (hc : isNonRetryable e = false) (h1 : fn 1 = .ok a) :
    retryWithBackoffOpt fn (m + 1) = (.ok a, 2) := by
  have hstep : retryLoopOpt fn 1 m = (.ok a, 1) := by
    cases m <;> simp [retryLoopOpt, h1]
  simp [retryWithBackoffOpt, retryLoopOpt, h, hc, hstep]

end OptimizedFetch

/-! ## Product loading of hooks/useProductsAPI.ts with its expired-cache
fallback -/

namespace ProductsLoad

def PRODUCTS_CACHE_KEY : String := "all_products"

/-- localStorage key probed by getExpiredCachedProducts:
CACHE_NAMESPACES.PRODUCTS + ":" + PRODUCTS_CACHE_KEY. -/
def expiredFallbackKey : String := "products" ++ ":" ++ PRODUCTS_CACHE_KEY

/-- getExpiredCachedProducts: read the raw localStorage record under
expiredFallbackKey and return its data array, ignoring any expiry. -/
def getExpiredCachedProducts {P : Type}
    (storage : List (String × CacheSvc.CacheItem (List P))) : Option (List P) :=
  match kvLookup storage expiredFallbackKey with
  | some item => some item.data
  | none => none

/-- Outcome of loadProducts as the caller observes it: products together
with an optional degraded-mode warning, or a hard failure. -/
inductive LoadOutcome (P : Type) where
  | loaded (products : List P) (warning : Option String)
  | failed (e : Fetcher.FetchError)
deriving DecidableEq, Repr

/-- Data path of loadProducts: a valid cacheService hit wins; otherwise
the (already retried) fetch result is consulted; on fetch failure the
expired-cache fallback is probed, and probed once more by the outer
catch, before the error surfaces with no data. -/
def loadProducts {P : Type} (st : CacheSvc.CacheState (List P)) (cacheTTL : ℤ) (now : ℤ)
    (fetchResult : Except Fetcher.FetchError (List P)) :
    LoadOutcome P × CacheSvc.CacheState (List P) :=
  let r := CacheSvc.get CacheSvc.prodConfig st "products" PRODUCTS_CACHE_KEY now
  match r.1 with
  | some products => (.loaded products none, r.2)
  | none =>
    match fetchResult with
    | .ok products =>
      (.loaded products none,
       CacheSvc.set CacheSvc.prodConfig r.2 "products" PRODUCTS_CACHE_KEY products
         (some cacheTTL) now)
    | .error apiError =>
      match getExpiredCachedProducts r.2.storage with
      | some products =>
        (.loaded products (some "Conectividade limitada - dados podem estar desatualizados"), r.2)
      | none =>
        match getExpiredCachedProducts r.2.storage with
        | some products =>
          (.loaded products (some "Sem conexão - exibindo dados salvos (podem estar desatualizados)"), r.2)
        | none => (.failed apiError, r.2)

end ProductsLoad

/-! ## Cross-tab cart synchronization (hooks/useCartSync.ts)

The state passed around consists of the two refs of each hook (debounce
timers are collapsed: the model is the body that runs when the debounce
fires) and the cart store state. stored models the JSON.parse of the
cart-storage localStorage record (none when absent or invalid). -/

namespace CartSync

structure SyncRefs where
  lastSync : ℤ
  isUpdating : Bool
deriving DecidableEq, Repr

/-- Parsed persist payload under the cart-storage key. -/
structure StoredState where
  items : List CartStore.CartItem
  sessionId : String
  lastUpdated : ℤ
deriving DecidableEq, Repr

/-- Body of debouncedUpdate in useCartSync: msgTs is the incoming
message's lastUpdated timestamp; a set isUpdating flag, a timestamp at or
below the local lastUpdated or the last synced one, a missing stored
snapshot, or an unchanged snapshot all leave everything untouched;
otherwise the stored snapshot is committed, lastSync advances to the
message timestamp and the isUpdating guard is raised. -/
def applySync (refs : SyncRefs) (st : CartStore.CartState) (stored : Option StoredState)
    (msgTs : ℤ) (now : ℤ) : SyncRefs × CartStore.CartState :=
  if refs.isUpdating then (refs, st)
  else if msgTs ≤ st.lastUpdated ∨ msgTs ≤ refs.lastSync then (refs, st)
  else
    match stored with
    | none => (refs, st)
    | some ns =>
      if st.items = ns.items ∧ st.sessionId = ns.sessionId then (refs, st)
      else
        ({ lastSync := msgTs, isUpdating := true },
         { st with items := ns.items,
                   sessionId := if ns.sessionId = "" then st.sessionId else ns.sessionId,
                   lastUpdated := if ns.lastUpdated = 0 then now else ns.lastUpdated })

/-- Body of debouncedStorageUpdate in useCartStorageSync: the storage
event carries the new record itself, whose lastUpdated doubles as the
message timestamp. -/
def applyStorageSync (refs : SyncRefs) (st : CartStore.CartState) (parsed : StoredState)
    (now : ℤ) : SyncRefs × CartStore.CartState :=
  if refs.isUpdating then (refs, st)
  else if parsed.lastUpdated ≤ st.lastUpdated ∨ parsed.lastUpdated ≤ refs.lastSync then (refs, st)
  else if st.items = parsed.items ∧ st.sessionId = parsed.sessionId then (refs, st)
  else
    ({ lastSync := parsed.lastUpdated, isUpdating := true },
     { st with items := parsed.items,
               sessionId := if parsed.sessionId = "" then st.sessionId else parsed.sessionId,
               lastUpdated := if parsed.lastUpdated = 0 then now else parsed.lastUpdated })

theorem applySync_cases (refs : SyncRefs) (st : CartStore.CartState)
    (stored : Option StoredState) (msgTs : ℤ) :
    (∀ m : ℤ, applySync refs st stored msgTs m = (refs, st))
    ∨ (∀ m : ℤ, (applySync refs st stored msgTs m).1.isUpdating = true) := by
  by_cases h1 : refs.isUpdating
  · left; intro m; simp [applySync, h1]
  · by_cases h2 : msgTs ≤ st.lastUpdated ∨ msgTs ≤ refs.lastSync
    · left; intro m; simp [applySync, h1, h2]
    · cases stored with
      | none => left; intro m; simp [applySync, h1, h2]
      | some ns =>
        by_cases h3 : st.items = ns.items ∧ st.sessionId = ns.sessionId
        · left; intro m; simp [applySync, h1, h2, h3]
        · right; intro m; simp [applySync, h1, h2, h3]

theorem applyStorageSync_cases (refs : SyncRefs) (st : CartStore.CartState)
    (parsed : StoredState) :
    (∀ m : ℤ, applyStorageSync refs st parsed m = (refs, st))
    ∨ (∀ m : ℤ, (applyStorageSync refs st parsed m).1.isUpdating = true) := by
  by_cases h1 : refs.isUpdating
  · left; intro m; simp [applyStorageSync, h1]
  · by_cases h2 : parsed.lastUpdated ≤ st.lastUpdated ∨ parsed.lastUpdated ≤ refs.lastSync
    · left; intro m; simp [applyStorageSync, h1, h2]
    · by_cases h3 : st.items = parsed.items ∧ st.sessionId = parsed.sessionId
      · left; intro m; simp [applyStorageSync, h1, h2, h3]
      · right; intro m; simp [applyStorageSync, h1, h2, h3]

theorem applySync_busy (refs : SyncRefs) (st : CartStore.CartState)
    (stored : Option StoredState) (msgTs now : ℤ) (h : refs.isUpdating = true) :
    applySync refs st stored msgTs now = (refs, st) := by
  simp [applySync, h]

theorem applyStorageSync_busy (refs : SyncRefs) (st : CartStore.CartState)
    (parsed : StoredState) (now : ℤ) (h : refs.isUpdating = true) :
    applyStorageSync refs st parsed now = (refs, st) := by
  simp [applyStorageSync, h]

theorem applySync_stale (refs : SyncRefs) (st : CartStore.CartState)
    (stored : Option StoredState) (msgTs now : ℤ) (h : msgTs ≤ st.lastUpdated) :
    applySync refs st stored msgTs now = (refs, st) := by
  by_cases h1 : refs.isUpdating
  · simp [applySync, h1]
  · simp [applySync, h1, Or.inl h]

theorem applyStorageSync_stale (refs : SyncRefs) (st : CartStore.CartState)
    (parsed : StoredState) (now : ℤ) (h : parsed.lastUpdated ≤ st.lastUpdated) :
    applyStorageSync refs st parsed now = (refs, st) := by
  by_cases h1 : refs.isUpdating
  · simp [applyStorageSync, h1]
  · simp [applyStorageSync, h1, Or.inl h]

theorem applySync_idem (refs : SyncRefs) (st : CartStore.CartState)
    (stored : Option StoredState) (msgTs now now2 : ℤ) :
    applySync (applySync refs st stored msgTs now).1 (applySync refs st stored msgTs now).2
        stored msgTs now2
      = applySync refs st stored msgTs now := by
  rcases applySync_cases refs st stored msgTs with hc | hc
  · rw [hc now]
    exact hc now2
  · rw [applySync_busy _ _ _ _ _ (hc now)]

theorem applyStorageSync_idem (refs : SyncRefs) (st : CartStore.CartState)
    (parsed : StoredState) (now now2 : ℤ) :
    applyStorageSync (applyStorageSync refs st parsed now).1
        (applyStorageSync refs st parsed now).2 parsed now2
      = applyStorageSync refs st parsed now := by
  rcases applyStorageSync_cases refs st parsed with hc | hc
  · rw [hc now]
    exact hc now2
  · rw [applyStorageSync_busy _ _ _ _ (hc now)]

end CartSync

/-! ## Cart validation of useCartAPI (hooks/useCartAPI.ts)

validateCart walks the stored cart items against the catalog view exposed
by useProductsAPI and only builds a validation record. -/

namespace ApiCart

structure NormalizedProduct where
  externalId : String
  price : ℚ
  availableQuantity : ℚ
deriving DecidableEq, Repr

structure ApiCartItem where
  productId : String
  quantity : ℚ
  unitPrice : ℚ
deriving DecidableEq, Repr

/-- Issue records built by this validateCart, carrying the payload fields
of the pushed objects. -/
inductive ValidationIssue where
  | productNotFound (productId : String)
  | insufficientStock (productId : String) (availableQuantity : ℚ)
  | priceChanged (productId : String) (oldPrice newPrice : ℚ)
deriving DecidableEq, Repr

structure CartValidation where
  isValid : Bool
  hasIssues : Bool
  issues : List ValidationIssue
deriving DecidableEq, Repr

/-- Loop of validateCart: a missing product is flagged and skips the
other checks (continue); otherwise the stock check and the 0.01-tolerance
price check are both applied to the same item. -/
def validateItemsAPI (products : List NormalizedProduct) :
    List ApiCartItem → List ValidationIssue
  | [] => []
  | item :: rest =>
    let tail := validateItemsAPI products rest
    match products.find? (fun p => p.externalId == item.productId) with
    | none => .productNotFound item.productId :: tail
    | some p =>
      (if p.availableQuantity < item.quantity then
        [.insufficientStock item.productId p.availableQuantity] else [])
      ++ (if |p.price - item.unitPrice| > 1 / 100 then
        [.priceChanged item.productId item.unitPrice p.price] else [])
      ++ tail

/-- validateCart of useCartAPI: an absent or empty cart is trivially
valid, otherwise the issue list fully determines the flags. The cart
itself is only read: the function's output is the validation record. -/
def validateCart (cartItems : Option (List ApiCartItem)) (products : List NormalizedProduct) :
    CartValidation :=
  match cartItems with
  | none => { isValid := true, hasIssues := false, issues := [] }
  | some items =>
    if items.isEmpty then { isValid := true, hasIssues := false, issues := [] }
    else
      let issues := validateItemsAPI products items
      { isValid := issues.isEmpty, hasIssues := !issues.isEmpty, issues := issues }

theorem validateCart_flags (cartItems : Option (List ApiCartItem))
    (products : List NormalizedProduct) :
    (validateCart cartItems products).isValid
        = (validateCart cartItems products).issues.isEmpty
    ∧ (validateCart cartItems products).hasIssues
        = !(validateCart cartItems products).issues.isEmpty := by
  cases cartItems with
  | none => simp [validateCart]
  | some items =>
    by_cases h : items.isEmpty <;> simp [validateCart, h]

end ApiCart

/-! ## Characterization of the store validateCart commit -/

namespace CartStore

/-- Survival test of one item under the store's validateCart: kept (with
refreshed product data) exactly when the catalog lookup succeeds on an
active product with enough stock. -/
def keepItem (catalog : String → Option Product) (item : CartItem) : Option CartItem :=
  match catalog item.product.externalId with
  | some p =>
    if !p.isActive then none
    else if p.availableQuantity < item.quantity then none
    else some { item with product := p }
  | none => none

theorem validateItems_snd (catalog : String → Option Product) :
    ∀ items : List CartItem,
      (validateItems catalog items).2 = items.filterMap (keepItem catalog)
  | [] => rfl
  | item :: rest => by
    simp only [validateItems, List.filterMap_cons]
    cases hc : catalog item.product.externalId with
    | none => simp [keepItem, hc, validateItems_snd catalog rest]
    | some p =>
      by_cases ha : p.isActive
      · by_cases hq : p.availableQuantity < item.quantity
        · simp [keepItem, hc, ha, hq, validateItems_snd catalog rest]
        · simp [keepItem, hc, ha, hq, validateItems_snd catalog rest]
      · simp [keepItem, hc, ha, validateItems_snd catalog rest]

theorem validateItems_count (catalog : String → Option Product) :
    ∀ items : List CartItem,
      (validateItems catalog items).1.length + (validateItems catalog items).2.length
        = items.length
  | [] => rfl
  | item :: rest => by
    have ih := validateItems_count catalog rest
    cases hc : catalog item.product.externalId with
    | none =>
      simp [validateItems, hc]
      omega
    | some p =>
      by_cases ha : p.isActive <;> by_cases hq : p.availableQuantity < item.quantity <;>
        simp [validateItems, hc, ha, hq] <;> omega

end CartStore

/-! ## Helper observations used by the accumulation and price claims -/

namespace CartStore

/-- Quantity of the first item with the given id (0 when absent). -/
def itemQty : List CartItem → String → ℚ
  | [], _ => 0
  | i :: is, pid => if i.id == pid then i.quantity else itemQty is pid

theorem addQtyFirst_length (pid : String) (q : ℚ) :
    ∀ items : List CartItem, (addQtyFirst pid q items).length = items.length
  | [] => rfl
  | i :: is => by
    cases hb : (i.id == pid) with
    | true => simp [addQtyFirst, hb]
    | false => simp [addQtyFirst, hb, addQtyFirst_length pid q is]

theorem itemQty_addQtyFirst (pid : String) (q : ℚ) :
    ∀ items : List CartItem, hasItem items pid = true →
      itemQty (addQtyFirst pid q items) pid = itemQty items pid + q
  | [], h => by simp [hasItem] at h
  | i :: is, h => by
    cases hb : (i.id == pid) with
    | true => simp [addQtyFirst, hb, itemQty]
    | false =>
      have h' : hasItem is pid = true := by simpa [hasItem, hb] using h
      simp [addQtyFirst, hb, itemQty, itemQty_addQtyFirst pid q is h']

end CartStore

namespace ConvexCart

theorem findItem_bumpFirst (pid : String) (f : DbCartItem → DbCartItem)
    (hf : ∀ i, (f i).productId = i.productId) :
    ∀ items : List DbCartItem,
      findItem (bumpFirst pid f items) pid = (findItem items pid).map f
  | [] => rfl
  | i :: is => by
    cases hb : (i.productId == pid) with
    | true =>
      have hfb : ((f i).productId == pid) = true := by
        rw [hf i]; exact hb
      simp [bumpFirst, findItem, hb, hfb, List.find?_cons]
    | false =>
      have ih := findItem_bumpFirst pid f hf is
      simp only [findItem] at ih
      simp [bumpFirst, findItem, hb, List.find?_cons, ih]

end ConvexCart

/-! ## Concrete fixtures used by the claim theorems, their witnesses and
counterexamples -/

namespace Fixtures

def prodA : CartStore.Product :=
  { externalId := "A", name := "Arroz Tipo 1", price := .num 10,
    availableQuantity := 100, isActive := true }

def cartA2 : CartStore.CartState :=
  CartStore.addToCart (CartStore.emptyCart "s1" 0) prodA 2 none 1

def cartA5 : CartStore.CartState :=
  CartStore.addToCart cartA2 prodA 3 none 2

def prodAInactive : CartStore.Product :=
  { externalId := "A", name := "Arroz Tipo 1", price := .num 10,
    availableQuantity := 100, isActive := false }

def catalogInactive (pid : String) : Option CartStore.Product :=
  if pid = "A" then some prodAInactive else none

def dbProd : ConvexCart.DbProduct :=
  { price := 10, availableQuantity := 100, isActive := true }

def dbProd12 : ConvexCart.DbProduct :=
  { price := 12, availableQuantity := 100, isActive := true }

def dbSession : ConvexCart.CartSession :=
  { sessionId := "s1", items := [{ productId := "P", quantity := 2, unitPrice := 10 }],
    totalItems := 2, totalAmount := 20, createdAt := 0, updatedAt := 0 }

def dbSessionRemoved : ConvexCart.CartSession :=
  { sessionId := "s1", items := [], totalItems := 0, totalAmount := 0,
    createdAt := 0, updatedAt := 7 }

def dbSession0 : ConvexCart.CartSession :=
  { sessionId := "s1", items := [{ productId := "P", quantity := 2, unitPrice := 10 }],
    totalItems := 2, totalAmount := 20, createdAt := 5, updatedAt := 5 }

def dbSessionAdd12 : ConvexCart.CartSession :=
  { sessionId := "s1", items := [{ productId := "P", quantity := 5, unitPrice := 12 }],
    totalItems := 5, totalAmount := 60, createdAt := 0, updatedAt := 9 }

def cacheAfterSet : CacheSvc.CacheState (List String) :=
  CacheSvc.set CacheSvc.prodConfig { memory := [], storage := [] } "products" "all"
    ["p1", "p2"] (some 300000) 0

def prodCacheExpired : CacheSvc.CacheState (List String) :=
  CacheSvc.set CacheSvc.prodConfig { memory := [], storage := [] } "products"
    ProductsLoad.PRODUCTS_CACHE_KEY ["p1", "p2"] (some 300000) 0

def netSeq : ℕ → Fetcher.NetOutcome String
  | 1 => .resp 404 none
  | _ => .resp 200 (some ["p1"])

def fnRetry : ℕ → Except Fetcher.FetchError (List String)
  | 1 => .error (.serverError 500)
  | _ => .ok ["x"]

def fnFail : ℕ → Except Fetcher.FetchError (List String)
  | 1 => .error (.serverError 500)
  | 2 => .error .timeout
  | _ => .error (.serverError 503)

def fnOpt404 : ℕ → Except OptimizedFetch.JsError (List String)
  | 0 => .error (OptimizedFetch.httpStatusError 404 "Not Found")
  | _ => .ok ["x"]

def fnOpt500 : ℕ → Except OptimizedFetch.JsError (List String)
  | 0 => .error (OptimizedFetch.httpStatusError 500 "Internal Server Error")
  | _ => .ok ["x"]

def refs0 : CartSync.SyncRefs := { lastSync := 0, isUpdating := false }

def stored1 : CartSync.StoredState := { items := [], sessionId := "s2", lastUpdated := 1 }

end Fixtures

/-! ## Claim theorems -/

/-- C1: for every cart state reachable by the mutations
addItem/addToCart, removeItem/removeFromCart, updateQuantity and
clearCart — on the client store and on the server cart-session rows — the
derived totals equal the aggregates of the current items: itemCount is
the sum of quantities and totalAmount the sum of unit price times
quantity, immediately after each mutation completes. -/
theorem C1_totals_invariant :
    (∀ st : CartStore.CartState, CartStore.Reachable st →
      st.itemCount = CartStore.sumQuantities st.items
      ∧ st.totalPrice = CartStore.sumAmounts st.items)
    ∧ (∀ cs : ConvexCart.CartSession, ConvexCart.Reach (some cs) →
      cs.totalItems = ConvexCart.itemsQuantitySum cs.items
      ∧ cs.totalAmount = ConvexCart.itemsAmountSum cs.items) :=
  ⟨fun _ h => ⟨(CartStore.reachable_totalsConsistent h).1,
               (CartStore.reachable_totalsConsistent h).2⟩,
   fun _ h => ⟨(ConvexCart.reach_sessionConsistent h _ rfl).1,
               (ConvexCart.reach_sessionConsistent h _ rfl).2⟩⟩

theorem C1_totals_invariant_witness :
    Fixtures.cartA5.itemCount = CartStore.sumQuantities Fixtures.cartA5.items
    ∧ Fixtures.dbSession0.totalItems = ConvexCart.itemsQuantitySum Fixtures.dbSession0.items :=
  ⟨(C1_totals_invariant.1 Fixtures.cartA5
      (CartStore.Reachable.add Fixtures.cartA2 Fixtures.prodA 3 none 2
        (CartStore.Reachable.add (CartStore.emptyCart "s1" 0) Fixtures.prodA 2 none 1
          (CartStore.Reachable.empty "s1" 0)))).1,
   (C1_totals_invariant.2 Fixtures.dbSession0
      (ConvexCart.Reach.add (some Fixtures.dbProd) "s1" "P" 2 5
        ConvexCart.Reach.start
        (by norm_num [ConvexCart.addToCart, Fixtures.dbProd, Fixtures.dbSession0]))).1⟩

/-- C4 counterexample: on a cart holding product P, the server mutation
updateCartItemQuantity with quantity 0 throws (Quantidade deve ser maior
que zero) while removeFromCart succeeds and removes the item, so a
quantity of 0 is treated as an error there and produces a different
result from removal — against the claim that updateQuantity with
qty ≤ 0 always equals removeItem and is never an error. -/
theorem C4_counterexample :
    ConvexCart.updateCartItemQuantity (some Fixtures.dbProd) (some Fixtures.dbSession) "P" 0 7
      = .error .quantityNotPositive
    ∧ ConvexCart.removeFromCart (some Fixtures.dbSession) "P" 7 = .ok Fixtures.dbSessionRemoved
    ∧ ConvexCart.updateCartItemQuantity (some Fixtures.dbProd) (some Fixtures.dbSession) "P" 0 7
      ≠ ConvexCart.removeFromCart (some Fixtures.dbSession) "P" 7 := by
  refine ⟨?_, ?_, ?_⟩
  · norm_num [ConvexCart.updateCartItemQuantity]
  · decide
  · decide

/-- C4 (amended): in the client cart store, updateQuantity with qty ≤ 0
produces exactly the state removeItem produces (a deliberate policy, not
an error); the server-side updateCartItemQuantity mutation instead
rejects any qty ≤ 0 with a Quantidade-deve-ser-maior-que-zero error. -/
theorem C4_update_zero_removes :
    (∀ (st : CartStore.CartState) (pid : String) (q : ℚ) (now : ℤ), q ≤ 0 →
      CartStore.updateQuantity st pid q now = CartStore.removeFromCart st pid now)
    ∧ (∀ (p : Option ConvexCart.DbProduct) (s : Option ConvexCart.CartSession)
        (pid : String) (q : ℚ) (now : ℤ), q ≤ 0 →
      ConvexCart.updateCartItemQuantity p s pid q now = .error .quantityNotPositive) := by
  constructor
  · intro st pid q now h
    simp [CartStore.updateQuantity, h]
  · intro p s pid q now h
    simp [ConvexCart.updateCartItemQuantity, h]

theorem C4_update_zero_removes_witness :
    CartStore.updateQuantity Fixtures.cartA2 "A" 0 9
      = CartStore.removeFromCart Fixtures.cartA2 "A" 9
    ∧ ConvexCart.updateCartItemQuantity (some Fixtures.dbProd) (some Fixtures.dbSession) "P" 0 9
      = .error .quantityNotPositive :=
  ⟨C4_update_zero_removes.1 Fixtures.cartA2 "A" 0 9 (by norm_num),
   C4_update_zero_removes.2 (some Fixtures.dbProd) (some Fixtures.dbSession) "P" 0 9 (by norm_num)⟩

/-- C7 counterexample: removing the absent id Z from a server cart
session is not a no-op: the removeFromCart mutation throws Item não
encontrado no carrinho — against the claim that removing a non-existent
id never raises an error. -/
theorem C7_counterexample :
    ConvexCart.removeFromCart (some Fixtures.dbSession) "Z" 7 = .error .itemNotFound := by
  decide

/-- C7 (amended): in the client cart store, removeItem of an absent id
leaves the state (items, totals, session token) entirely unchanged; the
server-side removeFromCart mutation instead throws Item não encontrado no
carrinho when the id is absent (and Carrinho não encontrado when no
session exists). -/
theorem C7_remove_absent_noop :
    (∀ (st : CartStore.CartState) (pid : String) (now : ℤ),
      CartStore.hasItem st.items pid = false → CartStore.removeFromCart st pid now = st)
    ∧ (∀ (cs : ConvexCart.CartSession) (pid : String) (now : ℤ),
      (∀ i ∈ cs.items, ¬ i.productId = pid) →
      ConvexCart.removeFromCart (some cs) pid now = .error .itemNotFound) := by
  constructor
  · intro st pid now h
    simp [CartStore.removeFromCart, h]
  · intro cs pid now h
    have hfilter : cs.items.filter (fun i => !(i.productId == pid)) = cs.items := by
      apply List.filter_eq_self.mpr
      intro i hi
      simpa using h i hi
    simp [ConvexCart.removeFromCart, hfilter]

theorem C7_remove_absent_noop_witness :
    CartStore.removeFromCart Fixtures.cartA2 "Z" 9 = Fixtures.cartA2
    ∧ ConvexCart.removeFromCart (some Fixtures.dbSession) "Q" 9 = .error .itemNotFound :=
  ⟨C7_remove_absent_noop.1 Fixtures.cartA2 "Z" 9 (by decide),
   C7_remove_absent_noop.2 Fixtures.dbSession "Q" 9 (by decide)⟩

/-- C9: adding product A (price 10) with quantity 2 and then again with
quantity 3 to an empty cart yields exactly one item of quantity 5 with
totalAmount 50; in general, addToCart on an id already in the cart keeps
the item count unchanged and accumulates the existing quantity by the
added one instead of inserting a second item. -/
theorem C9_add_accumulates :
    (Fixtures.cartA5.items
        = [{ id := "A", product := Fixtures.prodA, quantity := 5, addedAt := 1 }]
      ∧ Fixtures.cartA5.itemCount = 5 ∧ Fixtures.cartA5.totalPrice = 50)
    ∧ (∀ (st : CartStore.CartState) (p : CartStore.Product) (q : ℚ) (now : ℤ),
        (CartStore.priceFalsy p.price || p.name == "") = false →
        CartStore.hasItem st.items p.externalId = true →
        (CartStore.addToCart st p q none now).items.length = st.items.length
        ∧ CartStore.itemQty (CartStore.addToCart st p q none now).items p.externalId
            = CartStore.itemQty st.items p.externalId + q) := by
  constructor
  · refine ⟨?_, ?_, ?_⟩ <;>
      norm_num [Fixtures.cartA5, Fixtures.cartA2, Fixtures.prodA, CartStore.addToCart,
        CartStore.emptyCart, CartStore.priceFalsy, CartStore.hasItem, CartStore.addQtyFirst,
        CartStore.computeCartValues, CartStore.effectivePrice]
  · intro st p q now hfetch hhas
    simp only [CartStore.addToCart, hfetch, Bool.false_eq_true, if_false, Option.getD, hhas,
      if_true]
    exact ⟨CartStore.addQtyFirst_length p.externalId q st.items,
           CartStore.itemQty_addQtyFirst p.externalId q st.items hhas⟩

theorem C9_add_accumulates_witness :
    (CartStore.addToCart Fixtures.cartA2 Fixtures.prodA 3 none 2).items.length
      = Fixtures.cartA2.items.length
    ∧ CartStore.itemQty (CartStore.addToCart Fixtures.cartA2 Fixtures.prodA 3 none 2).items "A"
      = CartStore.itemQty Fixtures.cartA2.items "A" + 3 :=
  (C9_add_accumulates.2 Fixtures.cartA2 Fixtures.prodA 3 2 (by decide)
    (by norm_num [CartStore.hasItem, Fixtures.cartA2, CartStore.addToCart,
      CartStore.emptyCart, CartStore.priceFalsy, Fixtures.prodA]))

/-- C10: whenever the server addToCart accumulates into an item already
in the cart, and whenever updateCartItemQuantity succeeds, the stored
item's unitPrice is overwritten with the product's current catalog price;
the unit price captured when the item was first added is not preserved. -/
theorem C10_price_overwritten :
    (∀ (p : ConvexCart.DbProduct) (cs : ConvexCart.CartSession) (sid pid : String)
        (q : ℚ) (now : ℤ) (cs' : ConvexCart.CartSession),
      ConvexCart.addToCart (some p) (some cs) sid pid q now = .ok cs' →
      ConvexCart.findItem cs.items pid ≠ none →
      (ConvexCart.findItem cs'.items pid).map (fun i => i.unitPrice) = some p.price)
    ∧ (∀ (p : ConvexCart.DbProduct) (cs : ConvexCart.CartSession) (pid : String)
        (q : ℚ) (now : ℤ) (cs' : ConvexCart.CartSession),
      ConvexCart.updateCartItemQuantity (some p) (some cs) pid q now = .ok cs' →
      (ConvexCart.findItem cs'.items pid).map (fun i => i.unitPrice) = some p.price) := by
  constructor
  · intro p cs sid pid q now cs' h hmem
    simp only [ConvexCart.addToCart] at h
    repeat' split at h
    all_goals cases h
    · rename_i existing hfind _
      rw [show ConvexCart.findItem
            (ConvexCart.bumpFirst pid
              (fun i => { i with quantity := existing.quantity + q, unitPrice := p.price })
              cs.items) pid
          = (ConvexCart.findItem cs.items pid).map
              (fun i => { i with quantity := existing.quantity + q, unitPrice := p.price })
          from ConvexCart.findItem_bumpFirst pid
            (fun i => { i with quantity := existing.quantity + q, unitPrice := p.price })
            (fun _ => rfl) cs.items, hfind]
      rfl
    · rename_i hfind
      exact absurd hfind hmem
  · intro p cs pid q now cs' h
    simp only [ConvexCart.updateCartItemQuantity] at h
    repeat' split at h
    all_goals cases h
    rename_i existing hfind
    rw [show ConvexCart.findItem
          (ConvexCart.bumpFirst pid
            (fun i => { i with quantity := q, unitPrice := p.price }) cs.items) pid
        = (ConvexCart.findItem cs.items pid).map
            (fun i => { i with quantity := q, unitPrice := p.price })
        from ConvexCart.findItem_bumpFirst pid
          (fun i => { i with quantity := q, unitPrice := p.price })
          (fun _ => rfl) cs.items, hfind]
    rfl

/-- C2 counterexample: an entry written with ttl 300000 at time 0 and
read at time 300001 — past the TTL but well inside any longer grace
window — is a plain miss: get does not return the data marked stale. -/
theorem C2_counterexample :
    (CacheSvc.get CacheSvc.prodConfig Fixtures.cacheAfterSet "products" "all" 300001).1 = none
    ∧ ¬ (CacheSvc.get CacheSvc.prodConfig Fixtures.cacheAfterSet "products" "all" 300001).1
        = some ["p1", "p2"] := by
  refine ⟨by decide, by decide⟩

/-- C2 (amended): a get within the ttl of a set returns the data as a
hit and a get past the ttl is a miss that deletes the entry, in both
cache services; there is no stale window — the stale-while-revalidate
wrapper of useProductsAPIOptimized can never return a stale-marked hit
for entries it wrote, because the underlying cache already expires them
at exactly the fresh TTL. -/
theorem C2_ttl_only :
    (∀ (st : CacheSvc.CacheState (List String)) (ns ident : String) (data : List String)
        (t tw now : ℤ), t ≠ 0 →
      (CacheSvc.get CacheSvc.prodConfig
          (CacheSvc.set CacheSvc.prodConfig st ns ident data (some t) tw) ns ident now).1
        = if now - tw > t then none else some data)
    ∧ (∀ (c : List (String × SimpleCache.CacheItem (List String))) (key : String)
        (data : List String) (ttlMinutes tw now : ℤ),
      (SimpleCache.get (SimpleCache.set c key data ttlMinutes tw) key now).1
        = if now - tw > ttlMinutes * 60 * 1000 then none else some data)
    ∧ (∀ (st : CacheSvc.CacheState (OptimizedCatalog.PageEntry (List String))) (k : String)
        (data : List String) (tw now : ℤ) (d : List String) (b : Bool),
      (OptimizedCatalog.getCachedData (OptimizedCatalog.setCachedData st k data tw) k now).1
        = some (d, b) → b = false) :=
  ⟨fun st ns ident data t tw now ht =>
      CacheSvc.get_set CacheSvc.prodConfig st ns ident data t ht tw now,
   fun c key data ttl tw now => SimpleCache.simple_get_set c key data ttl tw now,
   fun st k data tw now d b h =>
      OptimizedCatalog.getCachedData_setCachedData_not_stale st k data tw now d b h⟩

theorem C2_ttl_only_witness :
    (CacheSvc.get CacheSvc.prodConfig Fixtures.cacheAfterSet "products" "all" 1000).1
      = (if (1000 : ℤ) - 0 > 300000 then none else some ["p1", "p2"])
    ∧ (SimpleCache.get
        (SimpleCache.set ([] : List (String × SimpleCache.CacheItem (List String)))
          "k" ["p"] 5 0) "k" 600000).1
      = (if (600000 : ℤ) - 0 > 5 * 60 * 1000 then none else some ["p"])
    ∧ false = false :=
  ⟨C2_ttl_only.1 { memory := [], storage := [] } "products" "all" ["p1", "p2"] 300000 0 1000
      (by decide),
   C2_ttl_only.2.1 [] "k" ["p"] 5 0 600000,
   C2_ttl_only.2.2 { memory := [], storage := [] } "kk" ["p"] 0 1000 ["p"] false (by decide)⟩

/-- C3 counterexample: the first attempt of fetchProductsFromAPI fails
with the 404 client error, yet a second attempt runs and its success is
returned — the 4xx error neither stops the retry loop nor propagates to
the caller. -/
theorem C3_counterexample :
    Fetcher.fetchAttempt (Fixtures.netSeq 1) = .error .endpointNotFound
    ∧ Fetcher.fetchProductsFromAPI Fixtures.netSeq = (.ok ["p1"], 2) := by
  refine ⟨by decide, by decide⟩

/-- C3 (amended): the retryWithBackoff used by useProducts retries after
every failure, 4xx included, until the attempt budget is exhausted, and
then propagates the last error; only the separate retryWithBackoff of
useProductsAPIOptimized classifies errors — an AbortError or an HTTP 4xx
other than 408 propagates immediately without a further attempt, while
5xx and timeout-class errors are retried. -/
theorem C3_retry_classification :
    (∀ (fn : ℕ → Except Fetcher.FetchError (List String)) (d e : Fetcher.FetchError)
        (a : List String),
      fn 1 = .error e → fn 2 = .ok a → Fetcher.retryWithBackoff fn 3 d = (.ok a, 2))
    ∧ (∀ (fn : ℕ → Except Fetcher.FetchError (List String)) (d e1 e2 e3 : Fetcher.FetchError),
      fn 1 = .error e1 → fn 2 = .error e2 → fn 3 = .error e3 →
      Fetcher.retryWithBackoff fn 3 d = (.error e3, 3))
    ∧ (∀ (fn : ℕ → Except OptimizedFetch.JsError (List String)) (m : ℕ)
        (e : OptimizedFetch.JsError),
      fn 0 = .error e → OptimizedFetch.isNonRetryable e = true →
      OptimizedFetch.retryWithBackoffOpt fn m = (.error e, 1))
    ∧ (∀ (fn : ℕ → Except OptimizedFetch.JsError (List String)) (m : ℕ)
        (e : OptimizedFetch.JsError) (a : List String),
      fn 0 = .error e → OptimizedFetch.isNonRetryable e = false → fn 1 = .ok a →
      OptimizedFetch.retryWithBackoffOpt fn (m + 1) = (.ok a, 2))
    ∧ (OptimizedFetch.isNonRetryable (OptimizedFetch.httpStatusError 404 "Not Found") = true
      ∧ OptimizedFetch.isNonRetryable (OptimizedFetch.httpStatusError 408 "Request Timeout")
          = false
      ∧ OptimizedFetch.isNonRetryable (OptimizedFetch.httpStatusError 500 "Internal Server Error")
          = false
      ∧ OptimizedFetch.isNonRetryable OptimizedFetch.timeoutError = false) :=
  ⟨fun fn d e a h1 h2 => Fetcher.retry_retries_any_error fn d e a h1 h2,
   fun fn d e1 e2 e3 h1 h2 h3 => Fetcher.retry_exhausts fn d e1 e2 e3 h1 h2 h3,
   fun fn m e h hc => OptimizedFetch.retryOpt_stops_on_nonretryable fn m e h hc,
   fun fn m e a h hc h1 => OptimizedFetch.retryOpt_retries_retryable fn m e a h hc h1,
   by decide, by decide, by decide, by decide⟩

theorem C3_retry_classification_witness :
    Fetcher.retryWithBackoff Fixtures.fnRetry 3 .unknownError = (.ok ["x"], 2)
    ∧ Fetcher.retryWithBackoff Fixtures.fnFail 3 .unknownError = (.error (.serverError 503), 3)
    ∧ OptimizedFetch.retryWithBackoffOpt Fixtures.fnOpt404 3
        = (.error (OptimizedFetch.httpStatusError 404 "Not Found"), 1)
    ∧ OptimizedFetch.retryWithBackoffOpt Fixtures.fnOpt500 3 = (.ok ["x"], 2) :=
  ⟨C3_retry_classification.1 Fixtures.fnRetry .unknownError (.serverError 500) ["x"] rfl rfl,
   C3_retry_classification.2.1 Fixtures.fnFail .unknownError (.serverError 500) .timeout
      (.serverError 503) rfl rfl rfl,
   C3_retry_classification.2.2.1 Fixtures.fnOpt404 3
      (OptimizedFetch.httpStatusError 404 "Not Found") rfl (by decide),
   C3_retry_classification.2.2.2.1 Fixtures.fnOpt500 2
      (OptimizedFetch.httpStatusError 500 "Internal Server Error") ["x"] rfl (by decide) rfl⟩

/-- C5 counterexample: on a cart holding product A whose catalog row is
now inactive, the store's validateCart empties the cart items (the
flagged item is removed) while reporting hasIssues — it does not leave
the cart state unchanged. -/
theorem C5_counterexample :
    (CartStore.validateCart Fixtures.cartA2 Fixtures.catalogInactive 9).2.items = []
    ∧ Fixtures.cartA2.items ≠ []
    ∧ ((CartStore.validateCart Fixtures.cartA2 Fixtures.catalogInactive 9).1).1 = true := by
  refine ⟨by decide, by decide, by decide⟩

/-- C5 (amended): the useCartAPI validateCart only computes the
validation record — isValid and hasIssues are exactly determined by the
issue list (product_not_found, insufficient_stock, price_changed) and no
cart state is produced or touched; the cart store's validateCart instead
commits a mutation: its resulting items are exactly the survivors of the
per-item checks (each flagged item is dropped, each kept item refreshed),
with one issue per dropped item. -/
theorem C5_validate :
    (∀ (cartItems : Option (List ApiCart.ApiCartItem))
        (products : List ApiCart.NormalizedProduct),
      (ApiCart.validateCart cartItems products).isValid
        = (ApiCart.validateCart cartItems products).issues.isEmpty
      ∧ (ApiCart.validateCart cartItems products).hasIssues
        = !(ApiCart.validateCart cartItems products).issues.isEmpty)
    ∧ (∀ (st : CartStore.CartState) (catalog : String → Option CartStore.Product) (now : ℤ),
      (CartStore.validateCart st catalog now).2.items
          = st.items.filterMap (CartStore.keepItem catalog)
      ∧ ((CartStore.validateCart st catalog now).1).2.length
          + (CartStore.validateCart st catalog now).2.items.length = st.items.length
      ∧ ((CartStore.validateCart st catalog now).1).1
          = !((CartStore.validateCart st catalog now).1).2.isEmpty) := by
  constructor
  · exact ApiCart.validateCart_flags
  · intro st catalog now
    refine ⟨?_, ?_, rfl⟩
    · simpa [CartStore.validateCart] using CartStore.validateItems_snd catalog st.items
    · simpa [CartStore.validateCart] using CartStore.validateItems_count catalog st.items

/-- C6: the degraded-mode fallback can never fire. The cache service
stores the catalog under cache_products_all_products while
getExpiredCachedProducts reads products:all_products, a key nothing
writes; so when the cache is TTL-expired and every retry fails,
loadProducts ends in a hard failure with no data instead of returning
the expired data with a warning, contradicting the code's own fallback
comments and messages. -/
theorem C6_expired_fallback_dead :
    CacheSvc.generateKey "products" ProductsLoad.PRODUCTS_CACHE_KEY
      ≠ ProductsLoad.expiredFallbackKey
    ∧ (kvLookup Fixtures.prodCacheExpired.storage
        (CacheSvc.generateKey "products" ProductsLoad.PRODUCTS_CACHE_KEY)).isSome = true
    ∧ (ProductsLoad.loadProducts Fixtures.prodCacheExpired 300000 600000
        (.error (.serverError 500))).1 = .failed (.serverError 500) := by
  refine ⟨by decide, by decide, by decide⟩

/-- C8: for both cross-tab sync paths, a message whose timestamp is at
or before the local cart's lastUpdated leaves refs and state unchanged,
and applying the same message twice in succession equals applying it
once — the second application is a no-op. -/
theorem C8_sync_lww_idempotent :
    (∀ (refs : CartSync.SyncRefs) (st : CartStore.CartState)
        (stored : Option CartSync.StoredState) (msgTs now : ℤ),
      msgTs ≤ st.lastUpdated → CartSync.applySync refs st stored msgTs now = (refs, st))
    ∧ (∀ (refs : CartSync.SyncRefs) (st : CartStore.CartState)
        (stored : Option CartSync.StoredState) (msgTs now now2 : ℤ),
      CartSync.applySync (CartSync.applySync refs st stored msgTs now).1
          (CartSync.applySync refs st stored msgTs now).2 stored msgTs now2
        = CartSync.applySync refs st stored msgTs now)
    ∧ (∀ (refs : CartSync.SyncRefs) (st : CartStore.CartState)
        (parsed : CartSync.StoredState) (now : ℤ),
      parsed.lastUpdated ≤ st.lastUpdated →
      CartSync.applyStorageSync refs st parsed now = (refs, st))
    ∧ (∀ (refs : CartSync.SyncRefs) (st : CartStore.CartState)
        (parsed : CartSync.StoredState) (now now2 : ℤ),
      CartSync.applyStorageSync (CartSync.applyStorageSync refs st parsed now).1
          (CartSync.applyStorageSync refs st parsed now).2 parsed now2
        = CartSync.applyStorageSync refs st parsed now) :=
  ⟨CartSync.applySync_stale, CartSync.applySync_idem, CartSync.applyStorageSync_stale,
   CartSync.applyStorageSync_idem⟩

theorem C8_sync_lww_idempotent_witness :
    CartSync.applySync Fixtures.refs0 Fixtures.cartA2 (some Fixtures.stored1) 1 9
      = (Fixtures.refs0, Fixtures.cartA2)
    ∧ CartSync.applyStorageSync Fixtures.refs0 Fixtures.cartA2 Fixtures.stored1 9
      = (Fixtures.refs0, Fixtures.cartA2) :=
  ⟨C8_sync_lww_idempotent.1 Fixtures.refs0 Fixtures.cartA2 (some Fixtures.stored1) 1 9
      (by decide),
   C8_sync_lww_idempotent.2.2.1 Fixtures.refs0 Fixtures.cartA2 Fixtures.stored1 9 (by decide)⟩

theorem C10_price_overwritten_witness :
    (ConvexCart.findItem Fixtures.dbSessionAdd12.items "P").map (fun i => i.unitPrice)
      = some Fixtures.dbProd12.price :=
  C10_price_overwritten.1 Fixtures.dbProd12 Fixtures.dbSession "s1" "P" 3 9
    Fixtures.dbSessionAdd12
    (by norm_num [ConvexCart.addToCart, ConvexCart.findItem, ConvexCart.bumpFirst,
      ConvexCart.sumItems, ConvexCart.sumValue, Fixtures.dbProd12, Fixtures.dbSession,
      Fixtures.dbSessionAdd12])
    (by decide)

end SpecProof
